import Mathlib

/-
Verification of the log/metric extraction and report-assembly pipeline of
the it-diagnostics-toolkit (toolkit.py).

Python strings are modelled as lists of characters (`PyStr`); the string
operations used by the source (`in`, `upper`, `lower`, `strip`, `split`,
slicing) are embedded below for ASCII text, which is the domain of the
logs the toolkit processes.  File handles and timestamps are abstracted:
a text file is its list of lines, and `datetime.now()` values are opaque
string parameters.  Exceptions raised by the Python code are modelled by
`Except PyError`.
-/

set_option autoImplicit false

abbrev PyStr := List Char

/-- Convert a Lean string literal to the `PyStr` representation. -/
def str (s : String) : PyStr := s.toList

/-- ASCII lowercasing of one character, as `str.lower` does on ASCII text. -/
def lowerChar (c : Char) : Char :=
  if 'A' ≤ c ∧ c ≤ 'Z' then Char.ofNat (c.toNat + 32) else c

/-- ASCII uppercasing of one character, as `str.upper` does on ASCII text. -/
def upperChar (c : Char) : Char :=
  if 'a' ≤ c ∧ c ≤ 'z' then Char.ofNat (c.toNat - 32) else c

/-- `s.lower()` on ASCII text. -/
def pyLower (s : PyStr) : PyStr := s.map lowerChar

/-- `s.upper()` on ASCII text. -/
def pyUpper (s : PyStr) : PyStr := s.map upperChar

/-- The whitespace characters removed by Python `str.strip()` (ASCII part). -/
def pySpace (c : Char) : Bool :=
  c == ' ' || c == '\t' || c == '\n' || c == '\r' || c == '\x0b' || c == '\x0c'

/-- `s.lstrip()`. -/
def pyLstrip (s : PyStr) : PyStr := s.dropWhile pySpace

/-- `s.rstrip()`. -/
def pyRstrip (s : PyStr) : PyStr := (s.reverse.dropWhile pySpace).reverse

/-- `s.strip()`. -/
def pyStrip (s : PyStr) : PyStr := pyRstrip (pyLstrip s)

/-- `startsWith needle hay` holds when `hay` begins with `needle`. -/
def startsWith : PyStr → PyStr → Bool
  | [], _ => true
  | _ :: _, [] => false
  | a :: as, b :: bs => a == b && startsWith as bs

/-- Text after the first (leftmost) occurrence of `needle` in the string,
`none` when `needle` does not occur.  `afterFirst? n h = some t` models the
Python fact that `h.split(n)` has at least two fields, with `h` ending in
`t` after the first separator. -/
def afterFirst? (needle : PyStr) : PyStr → Option PyStr
  | [] => if startsWith needle [] then some [] else none
  | c :: rest =>
      if startsWith needle (c :: rest) then some (List.drop needle.length (c :: rest))
      else afterFirst? needle rest

/-- The text before the first occurrence of `needle` (the whole string when
`needle` does not occur). -/
def upToFirst (needle : PyStr) : PyStr → PyStr
  | [] => []
  | c :: rest =>
      if startsWith needle (c :: rest) then []
      else c :: upToFirst needle rest

/-- The Python containment test `needle in hay`. -/
def pyIn (needle hay : PyStr) : Bool := (afterFirst? needle hay).isSome

/-- `hay.split(needle)[1]` when it exists: the text strictly between the
first and second occurrences of `needle` (to the end of the string when
`needle` occurs exactly once); `none` models the `IndexError` raised when
`needle` does not occur at all. -/
def splitSecond? (needle hay : PyStr) : Option PyStr :=
  (afterFirst? needle hay).map (upToFirst needle)

/-- Python exceptions that the toolkit code can raise on the modelled paths. -/
inductive PyError where
  | indexError
  | attrError
  | fileNotFound
  deriving DecidableEq, Repr

deriving instance DecidableEq for Except

/-- The normalized issue-record categories (spec §3). -/
inductive Category where
  | UserConflict
  | SystemError
  | ResourceFlag
  | EventAnomaly
  deriving DecidableEq, Repr

/-- The normalized Issue Record (spec §3).  `description` is the free-text
payload, `code_or_id` the optional short identifier, `value` the optional
numeric payload of resource flags, and `aux` the auxiliary raw-output text
of the resource-monitor fallback record.  The `observed_at` wall-clock
stamp of mode-A records is nondeterministic (`datetime.now()`) and is not
modelled. -/
structure Record where
  category : Category
  description : PyStr
  code_or_id : Option PyStr
  value : Option ℚ
  aux : Option PyStr
  deriving DecidableEq, Repr

/-- `analyze_user_log` (toolkit.py lines 12-26), with the file given as its
list of lines: for each line, `re.search(r'conflict|error|failed to load',
line, re.IGNORECASE)` — i.e. case-insensitive containment of one of the
three literal alternatives — and on a match one appended record whose
description is the stripped line. -/
def analyze_user_log : List PyStr → List Record
  | [] => []
  | line :: rest =>
      if pyIn (str "conflict") (pyLower line) || pyIn (str "error") (pyLower line)
          || pyIn (str "failed to load") (pyLower line) then
        Record.mk Category.UserConflict (pyStrip line) none none none :: analyze_user_log rest
      else
        analyze_user_log rest

/-- C1: mode A emits exactly one `UserConflict` record per line containing one
of the trigger substrings case-insensitively — its description the trimmed
line — and zero records for the other lines; a line matching several triggers
still yields a single record.  All of this is captured by the equation with
the filter-then-map of the trigger test over the lines, in file order. -/
theorem c1_mode_a_filter_map (lines : List PyStr) :
    analyze_user_log lines =
      (lines.filter (fun l =>
          pyIn (str "conflict") (pyLower l) || pyIn (str "error") (pyLower l)
            || pyIn (str "failed to load") (pyLower l))).map
        (fun l => Record.mk Category.UserConflict (pyStrip l) none none none) := by
  induction lines with
  | nil => rfl
  | cons line rest ih =>
      by_cases h : (pyIn (str "conflict") (pyLower line) || pyIn (str "error") (pyLower line)
          || pyIn (str "failed to load") (pyLower line)) = true
      · simp [analyze_user_log, h, ih]
      · simp [analyze_user_log, h, ih]

example : analyze_user_log [str "all good", str "Driver ERROR found", str "x failed to load!"]
    = [Record.mk Category.UserConflict (str "Driver ERROR found") none none none,
       Record.mk Category.UserConflict (str "x failed to load!") none none none] := by decide

/-- `analyze_system_logs` (toolkit.py lines 28-38), with the file given as
its list of lines: for each line, test `'ERROR' in line.upper()`; on a match
append a record with `error_code = line.split('ERROR')[1].strip()[:10]` and
`description = line.strip()`.  The subscript `[1]` raises `IndexError` when
the (case-sensitive) separator `'ERROR'` does not occur in the line, which
aborts the whole extraction. -/
def analyze_system_logs : List PyStr → Except PyError (List Record)
  | [] => .ok []
  | line :: rest =>
      if pyIn (str "ERROR") (pyUpper line) then
        match splitSecond? (str "ERROR") line with
        | none => .error PyError.indexError
        | some seg =>
            (analyze_system_logs rest).map
              (fun rs =>
                Record.mk Category.SystemError (pyStrip line)
                  (some ((pyStrip seg).take 10)) none none :: rs)
      else
        analyze_system_logs rest

/-- The mode-B record the code produces for a line in which the separator
`'ERROR'` occurs (so that `splitSecond?` is `some`). -/
def sysRecOf (line : PyStr) : Record :=
  Record.mk Category.SystemError (pyStrip line)
    (some ((pyStrip ((splitSecond? (str "ERROR") line).getD [])).take 10)) none none

/-- The `code_or_id` the spec's words prescribe for a mode-B line: the next
up-to-10 characters of the line immediately following the first
case-sensitive occurrence of `"ERROR"`, after trimming leading whitespace.
Stated from the spec, for comparison with the code's `sysRecOf`. -/
def specModeB_code (line : PyStr) : PyStr :=
  (pyLstrip ((afterFirst? (str "ERROR") line).getD [])).take 10

theorem pyIn_splitSecond_isSome {needle hay : PyStr} (h : pyIn needle hay = true) :
    ∃ seg, splitSecond? needle hay = some seg := by
  unfold pyIn at h
  unfold splitSecond?
  cases hb : afterFirst? needle hay with
  | none => rw [hb] at h; simp at h
  | some t => exact ⟨upToFirst needle t, rfl⟩

/-- C2, amended: on a log in which every line that contains "ERROR"
case-insensitively also contains it case-sensitively, mode B emits exactly
one SystemError record per such line, whose `code_or_id` is the text
strictly between the first and second case-sensitive occurrences of "ERROR"
(to the end of the line when it occurs once), stripped on both sides and
truncated to at most 10 characters, and whose description is the trimmed
line. -/
theorem c2_mode_b_amended (lines : List PyStr)
    (h : ∀ l ∈ lines, pyIn (str "ERROR") (pyUpper l) = true → pyIn (str "ERROR") l = true) :
    ∃ out, analyze_system_logs lines = .ok out ∧
      out = (lines.filter (fun l => pyIn (str "ERROR") (pyUpper l))).map sysRecOf ∧
      ∀ r ∈ out, r.category = Category.SystemError ∧
        ∃ code, r.code_or_id = some code ∧ code.length ≤ 10 := by
  revert h
  induction lines with
  | nil => exact fun _ => ⟨[], rfl, rfl, by simp⟩
  | cons line rest ih =>
      intro h
      have hrest : ∀ l ∈ rest, pyIn (str "ERROR") (pyUpper l) = true →
          pyIn (str "ERROR") l = true :=
        fun l hl => h l (List.mem_cons_of_mem _ hl)
      obtain ⟨out, hok, houteq, hrec⟩ := ih hrest
      by_cases hc : pyIn (str "ERROR") (pyUpper line) = true
      · have hcs : pyIn (str "ERROR") line = true := h line (List.mem_cons_self _ _) hc
        obtain ⟨seg, hseg⟩ := pyIn_splitSecond_isSome hcs
        refine ⟨sysRecOf line :: out, ?_, ?_, ?_⟩
        · simp [analyze_system_logs, hc, hseg, hok, sysRecOf, Except.map]
        · simp [List.filter_cons, hc, houteq]
        · intro r hr
          rcases List.mem_cons.mp hr with h1 | h2
          · subst h1
            exact ⟨rfl, _, rfl, List.length_take_le _ _⟩
          · exact hrec r h2
      · refine ⟨out, ?_, ?_, hrec⟩
        · simp [analyze_system_logs, hc, hok]
        · simp [List.filter_cons, hc, houteq]

theorem c2_mode_b_witness :
    ∃ out, analyze_system_logs [str "ERROR 404 not found", str "all fine"] = .ok out ∧
      out = (([str "ERROR 404 not found", str "all fine"]).filter
          (fun l => pyIn (str "ERROR") (pyUpper l))).map sysRecOf ∧
      ∀ r ∈ out, r.category = Category.SystemError ∧
        ∃ code, r.code_or_id = some code ∧ code.length ≤ 10 :=
  c2_mode_b_amended _ (by decide)

/-- C2, counterexample to the claim as stated.  A line containing "ERROR"
only case-insensitively makes the extractor raise `IndexError` instead of
emitting a record; and on a line with two case-sensitive occurrences, or
with trailing whitespace after the code, the emitted `code_or_id` differs
from the spec's "next up-to-10 characters after the first occurrence,
leading whitespace trimmed" (`specModeB_code`). -/
theorem c2_mode_b_counterexample :
    analyze_system_logs [str "disk error detected"] = .error PyError.indexError ∧
    analyze_system_logs [str "ERRORabcERRORdef"] =
      .ok [Record.mk Category.SystemError (str "ERRORabcERRORdef") (some (str "abc")) none none] ∧
    specModeB_code (str "ERRORabcERRORdef") = str "abcERRORde" ∧
    ¬ (str "abc" = str "abcERRORde") ∧
    analyze_system_logs [str "ERROR  ab  "] =
      .ok [Record.mk Category.SystemError (str "ERROR  ab") (some (str "ab")) none none] ∧
    specModeB_code (str "ERROR  ab  ") = str "ab  " ∧
    ¬ (str "ab" = str "ab  ") := by decide

/-- Outcome of the live-metric source (`psutil`), as the spec's design note
models it: either the two sampled percentages, or unavailability (the
`ImportError` the source catches). -/
inductive MetricSample where
  | available (cpu mem : ℚ)
  | unavailable
  deriving DecidableEq, Repr

/-- `check_resource_usage` (toolkit.py lines 40-55).  Primary path: a flag
for CPU when `cpu > 80` and a flag for memory when `mem > 80`, in that
order, each carrying the measured value.  Fallback path on unavailability:
run `top -bn1` — whose result is the second argument, since `subprocess.run`
here is NOT wrapped in any handler and its failure propagates — and return
one record with `issue = 'Resource check via top'` and the first 200
characters of its stdout as auxiliary text. -/
def check_resource_usage (src : MetricSample) (topRes : Except PyError PyStr) :
    Except PyError (List Record) :=
  match src with
  | .available cpu mem =>
      .ok ((if 80 < cpu then
              [Record.mk Category.ResourceFlag (str "High CPU usage") none (some cpu) none]
            else []) ++
           (if 80 < mem then
              [Record.mk Category.ResourceFlag (str "High Memory usage") none (some mem) none]
            else []))
  | .unavailable =>
      match topRes with
      | .error e => .error e
      | .ok out =>
          .ok [Record.mk Category.ResourceFlag (str "Resource check via top") none none
                (some (out.take 200))]

/-- C4, counterexample to the claim as stated: when live sampling is
unavailable and the external `top` command is itself missing, the
`FileNotFoundError` of `subprocess.run` propagates out of
`check_resource_usage`, so the operation does fail outward. -/
theorem c4_counterexample :
    check_resource_usage MetricSample.unavailable (.error PyError.fileNotFound) =
      .error PyError.fileNotFound := rfl

/-- C4, amended: as long as the external process-listing command invocation
itself succeeds, the Resource Monitor never fails outward: it returns a
record list for every metric-source outcome, and on unavailability exactly
one fallback record with description "Resource check via top", the first
200 characters of the command output as auxiliary text, and no value. -/
theorem c4_amended (src : MetricSample) (o : PyStr) :
    ∃ rs, check_resource_usage src (.ok o) = .ok rs ∧
      (src = MetricSample.unavailable →
        rs = [Record.mk Category.ResourceFlag (str "Resource check via top") none none
                (some (o.take 200))]) := by
  cases src with
  | available cpu mem => exact ⟨_, rfl, by intro h; cases h⟩
  | unavailable => exact ⟨_, rfl, fun _ => rfl⟩

theorem c4_witness :
    ∃ rs, check_resource_usage MetricSample.unavailable (.ok (str "top - 12:00  up 1 day")) =
        .ok rs ∧
      (MetricSample.unavailable = MetricSample.unavailable →
        rs = [Record.mk Category.ResourceFlag (str "Resource check via top") none none
                (some ((str "top - 12:00  up 1 day").take 200))]) :=
  c4_amended MetricSample.unavailable (str "top - 12:00  up 1 day")

/-- C5: on the primary path a flag is emitted for a metric exactly when its
measured value is strictly greater than 80 (80 itself does not flag), with
the fixed description and the measured value as payload; nothing else is
emitted, so CPU=85 with memory=50 yields exactly one flag. -/
theorem c5_thresholds (cpu mem : ℚ) (topRes : Except PyError PyStr) :
    ∃ out, check_resource_usage (.available cpu mem) topRes = .ok out ∧
      (Record.mk Category.ResourceFlag (str "High CPU usage") none (some cpu) none ∈ out
        ↔ 80 < cpu) ∧
      (Record.mk Category.ResourceFlag (str "High Memory usage") none (some mem) none ∈ out
        ↔ 80 < mem) ∧
      out.length = (if 80 < cpu then 1 else 0) + (if 80 < mem then 1 else 0) ∧
      ∀ r ∈ out, r.category = Category.ResourceFlag ∧
        (r.description = str "High CPU usage" ∨ r.description = str "High Memory usage") := by
  by_cases h1 : (80 : ℚ) < cpu <;> by_cases h2 : (80 : ℚ) < mem <;>
    refine ⟨_, rfl, ?_, ?_, ?_, ?_⟩ <;>
      simp [check_resource_usage, h1, h2, Record.mk.injEq, str]

theorem c5_witness :
    ∃ out, check_resource_usage (.available 85 50) (.ok []) = .ok out ∧
      (Record.mk Category.ResourceFlag (str "High CPU usage") none (some 85) none ∈ out
        ↔ (80 : ℚ) < 85) ∧
      (Record.mk Category.ResourceFlag (str "High Memory usage") none (some 50) none ∈ out
        ↔ (80 : ℚ) < 50) ∧
      out.length = (if (80 : ℚ) < 85 then 1 else 0) + (if (80 : ℚ) < 50 then 1 else 0) ∧
      ∀ r ∈ out, r.category = Category.ResourceFlag ∧
        (r.description = str "High CPU usage" ∨ r.description = str "High Memory usage") :=
  c5_thresholds 85 50 (.ok [])

/-- The snapshot of process and connection listings (spec §4.4). -/
structure Snapshot where
  processes : PyStr
  connections : PyStr
  deriving DecidableEq, Repr

/-- Result of the Snapshot Collector: either a snapshot, or the degraded
error-shaped result when one of the external commands is missing. -/
inductive SnapResult where
  | ok (s : Snapshot)
  | degraded (msg : PyStr)
  deriving DecidableEq, Repr

/-- `simulate_system_snapshot` (toolkit.py lines 75-85), with the two
`subprocess.run(...).stdout` results as arguments: on success each captured
text is sliced to its first 500 characters (`[:500]`); a
`FileNotFoundError` from either command is caught and turned into the
degraded dictionary `{'error': 'Commands not available on this system.'}`. -/
def simulate_system_snapshot (psRes connRes : Except PyError PyStr) : SnapResult :=
  match psRes with
  | .error _ => .degraded (str "Commands not available on this system.")
  | .ok ps =>
      match connRes with
      | .error _ => .degraded (str "Commands not available on this system.")
      | .ok conn => .ok (Snapshot.mk (ps.take 500) (conn.take 500))

/-- C6: for every pair of command outputs the snapshot carries each text
truncated to its first 500 characters — length exactly 500 when the output
is longer than 500 characters, the unchanged text when it is at most 500. -/
theorem c6_snapshot_truncation (ps conn : PyStr) :
    ∃ s, simulate_system_snapshot (.ok ps) (.ok conn) = SnapResult.ok s ∧
      s.processes = ps.take 500 ∧ s.connections = conn.take 500 ∧
      s.processes.length = min 500 ps.length ∧
      s.connections.length = min 500 conn.length ∧
      (500 < ps.length → s.processes.length = 500) ∧
      (ps.length ≤ 500 → s.processes = ps) ∧
      (500 < conn.length → s.connections.length = 500) ∧
      (conn.length ≤ 500 → s.connections = conn) := by
  refine ⟨_, rfl, rfl, rfl, List.length_take _ _, List.length_take _ _, ?_, ?_, ?_, ?_⟩
  · intro h; simp [List.length_take]; omega
  · intro h; exact List.take_of_length_le h
  · intro h; simp [List.length_take]; omega
  · intro h; exact List.take_of_length_le h

theorem c6_witness :
    ∃ s, simulate_system_snapshot (.ok (List.replicate 800 'p')) (.ok (str "tcp 0 0")) =
        SnapResult.ok s ∧
      s.processes = (List.replicate 800 'p').take 500 ∧
      s.connections = (str "tcp 0 0").take 500 ∧
      s.processes.length = min 500 (List.replicate 800 'p').length ∧
      s.connections.length = min 500 (str "tcp 0 0").length ∧
      (500 < (List.replicate 800 'p').length → s.processes.length = 500) ∧
      ((List.replicate 800 'p').length ≤ 500 → s.processes = List.replicate 800 'p') ∧
      (500 < (str "tcp 0 0").length → s.connections.length = 500) ∧
      ((str "tcp 0 0").length ≤ 500 → s.connections = str "tcp 0 0") :=
  c6_snapshot_truncation (List.replicate 800 'p') (str "tcp 0 0")

/-- An element of the structured (XML) event document: tag, text payload
(`None` in ElementTree when the element encloses no text), child elements
in document order. -/
inductive XML where
  | elem (tag : PyStr) (text : Option PyStr) (children : List XML)

def XML.tag : XML → PyStr
  | .elem t _ _ => t

def XML.text : XML → Option PyStr
  | .elem _ x _ => x

def XML.children : XML → List XML
  | .elem _ _ cs => cs

/-- `e.find('t1/t2')` in ElementTree: scanning the children of `e` with tag
`t1` in order, the first of their children with tag `t2`. -/
def find2 (e : XML) (t1 t2 : PyStr) : Option XML :=
  e.children.findSome? (fun c =>
    if c.tag == t1 then c.children.find? (fun d => d.tag == t2) else none)

/-- All elements of a forest in document (preorder) order: each root
followed by its subtree, then the rest of the forest. -/
def subtreesPre : List XML → List XML
  | [] => []
  | .elem t x cs :: rest => .elem t x cs :: (subtreesPre cs ++ subtreesPre rest)

/-- `root.findall('.//Event')`: every strict descendant of the root with
tag `Event`, at any depth, in document order. -/
def findallEvents (root : XML) : List XML :=
  (subtreesPre root.children).filter (fun e => e.tag == str "Event")

/-- The per-`Event` body of the loop in `parse_event_logs` (toolkit.py
lines 65-72): find `EventData/Data`; when absent, no record; when present,
`desc.text.lower()` raises `AttributeError` if the text is `None`;
otherwise, when the text contains "crash", a record is built from
`event.find('System/EventID').text` — where a missing `System/EventID`
again raises `AttributeError` — and the data text. -/
def eventStep (e : XML) : Except PyError (Option Record) :=
  match find2 e (str "EventData") (str "Data") with
  | none => .ok none
  | some d =>
      match d.text with
      | none => .error PyError.attrError
      | some txt =>
          if pyIn (str "crash") (pyLower txt) then
            match find2 e (str "System") (str "EventID") with
            | none => .error PyError.attrError
            | some idE => .ok (some (Record.mk Category.EventAnomaly txt idE.text none none))
          else .ok none

/-- The `anomalies` accumulation loop of `parse_event_logs`: an exception
anywhere aborts the whole extraction. -/
def parseEvents : List XML → Except PyError (List Record)
  | [] => .ok []
  | e :: rest =>
      match eventStep e with
      | .error err => .error err
      | .ok none => parseEvents rest
      | .ok (some r) => (parseEvents rest).map (r :: ·)

/-- `parse_event_logs` (toolkit.py lines 57-73), on the parsed document. -/
def parse_event_logs (doc : XML) : Except PyError (List Record) :=
  parseEvents (findallEvents doc)

/-- An `Event` element qualifies when its `EventData/Data` field is present,
carries text, and the text contains "crash" case-insensitively. -/
def eventQualifies (e : XML) : Bool :=
  match find2 e (str "EventData") (str "Data") with
  | none => false
  | some d =>
      match d.text with
      | none => false
      | some txt => pyIn (str "crash") (pyLower txt)

/-- The record `parse_event_logs` emits for a qualifying `Event`. -/
def anomalyRecOf (e : XML) : Record :=
  Record.mk Category.EventAnomaly
    (((find2 e (str "EventData") (str "Data")).bind XML.text).getD [])
    ((find2 e (str "System") (str "EventID")).bind XML.text) none none

theorem parseEvents_ok (L : List XML)
    (h1 : ∀ e ∈ L, ∀ d, find2 e (str "EventData") (str "Data") = some d → d.text ≠ none)
    (h2 : ∀ e ∈ L, eventQualifies e = true →
      (find2 e (str "System") (str "EventID")).isSome = true) :
    parseEvents L = .ok ((L.filter eventQualifies).map anomalyRecOf) := by
  revert h1 h2
  induction L with
  | nil => intro _ _; rfl
  | cons e rest ih =>
      intro h1 h2
      have hrest := ih (fun x hx => h1 x (List.mem_cons_of_mem _ hx))
        (fun x hx => h2 x (List.mem_cons_of_mem _ hx))
      cases hfd : find2 e (str "EventData") (str "Data") with
      | none =>
          have hq : eventQualifies e = false := by simp [eventQualifies, hfd]
          simp [parseEvents, eventStep, hfd, List.filter_cons, hq, hrest]
      | some d =>
          cases htxt : d.text with
          | none => exact absurd htxt (h1 e (List.mem_cons_self _ _) d hfd)
          | some txt =>
              by_cases hcr : pyIn (str "crash") (pyLower txt) = true
              · have hq : eventQualifies e = true := by simp [eventQualifies, hfd, htxt, hcr]
                cases hid : find2 e (str "System") (str "EventID") with
                | none =>
                    have := h2 e (List.mem_cons_self _ _) hq
                    rw [hid] at this
                    simp at this
                | some idE =>
                    have hrec : anomalyRecOf e =
                        Record.mk Category.EventAnomaly txt idE.text none none := by
                      simp [anomalyRecOf, hfd, htxt, hid]
                    simp [parseEvents, eventStep, hfd, htxt, hcr, hid, List.filter_cons, hq,
                      hrest, hrec, Except.map]
              · have hq : eventQualifies e = false := by
                  simp [eventQualifies, hfd, htxt]
                  exact Bool.not_eq_true _ ▸ hcr
                simp [parseEvents, eventStep, hfd, htxt, hcr, List.filter_cons, hq, hrest]

/-- C3, amended: on a well-formed event document in which every present
`EventData/Data` field carries text and every crash-qualifying `Event` has
a `System/EventID` field, the extractor emits exactly one `EventAnomaly`
record per qualifying `Event` — `code_or_id` the `System/EventID` text,
description the data text — and skips every other `Event`; however an
`Event` whose data field is present but carries no text makes the
extractor raise `AttributeError` rather than being skipped. -/
theorem c3_event_extractor_amended (doc : XML)
    (h1 : ∀ e ∈ findallEvents doc, ∀ d,
      find2 e (str "EventData") (str "Data") = some d → d.text ≠ none)
    (h2 : ∀ e ∈ findallEvents doc, eventQualifies e = true →
      (find2 e (str "System") (str "EventID")).isSome = true) :
    parse_event_logs doc = .ok (((findallEvents doc).filter eventQualifies).map anomalyRecOf) :=
  parseEvents_ok _ h1 h2

/-- `<Data>App crash detected</Data>` of the sample document. -/
def sampleData : XML := .elem (str "Data") (some (str "App crash detected")) []

/-- The spec's round-trip sample: one crash-flagged event with ID "42". -/
def sampleEvent : XML :=
  .elem (str "Event") none
    [.elem (str "System") none [.elem (str "EventID") (some (str "42")) []],
     .elem (str "EventData") none [sampleData]]

def sampleDoc : XML := .elem (str "Events") none [sampleEvent]

theorem sampleDoc_events : findallEvents sampleDoc = [sampleEvent] := by
  simp only [findallEvents, sampleDoc, sampleEvent, sampleData, XML.children, subtreesPre]
  rfl

theorem c3_event_extractor_witness :
    parse_event_logs sampleDoc =
      .ok [Record.mk Category.EventAnomaly (str "App crash detected") (some (str "42"))
            none none] := by
  have h1 : ∀ e ∈ findallEvents sampleDoc, ∀ d,
      find2 e (str "EventData") (str "Data") = some d → d.text ≠ none := by
    rw [sampleDoc_events]
    intro e he d hd
    simp only [List.mem_singleton] at he
    subst he
    have hfd : find2 sampleEvent (str "EventData") (str "Data") = some sampleData := rfl
    rw [hfd] at hd
    cases hd
    simp [sampleData, XML.text]
  have h2 : ∀ e ∈ findallEvents sampleDoc, eventQualifies e = true →
      (find2 e (str "System") (str "EventID")).isSome = true := by
    rw [sampleDoc_events]
    intro e he _
    simp only [List.mem_singleton] at he
    subst he
    rfl
  rw [c3_event_extractor_amended sampleDoc h1 h2, sampleDoc_events]
  rfl

/-- An event document with a single `Event` holding an empty
`<Data/>` field (text `None` in ElementTree). -/
def emptyDataDoc : XML :=
  .elem (str "Events") none
    [.elem (str "Event") none [.elem (str "EventData") none [.elem (str "Data") none []]]]

/-- C3, counterexample to the claim as stated: an `Event` whose data field
is present but carries no text does not mention "crash", so the claim says
it is skipped without error — but `desc.text.lower()` raises
`AttributeError`, so the extractor fails instead of returning the empty
sequence. -/
theorem c3_event_extractor_counterexample :
    parse_event_logs emptyDataDoc = .error PyError.attrError ∧
    ¬ parse_event_logs emptyDataDoc = .ok [] := by
  have h : parse_event_logs emptyDataDoc = .error PyError.attrError := by
    simp only [parse_event_logs, findallEvents, emptyDataDoc, XML.children, subtreesPre]
    rfl
  exact ⟨h, by rw [h]; intro hc; cases hc⟩

/-- C10: `findall('.//Event')` scans descendants at every depth, so
wrapping the event forest in one more non-`Event` element changes nothing:
the same records are extracted. -/
theorem c10_nested_events (rt wt : PyStr) (rx wx : Option PyStr) (cs : List XML)
    (h : ¬ wt = str "Event") :
    parse_event_logs (.elem rt rx [.elem wt wx cs]) = parse_event_logs (.elem rt rx cs) := by
  simp only [parse_event_logs, findallEvents, XML.children, subtreesPre, List.append_nil]
  rw [List.filter_cons]
  simp [XML.tag, h]

theorem c10_nested_events_witness :
    parse_event_logs (.elem (str "Events") none [.elem (str "Wrapper") none [sampleEvent]]) =
      parse_event_logs (.elem (str "Events") none [sampleEvent]) :=
  c10_nested_events (str "Events") (str "Wrapper") none none [sampleEvent] (by decide)

/-- The JSON report object of `generate_support_report` (toolkit.py lines
90-99), field for field in the source's key order. -/
structure Report where
  summary : PyStr
  user_issues : List Record
  system_errors : List Record
  resource_flags : List Record
  anomalies : List Record
  system_snapshot : SnapResult
  timestamp : PyStr
  recommendations : List PyStr
  deriving DecidableEq, Repr

/-- Decimal rendering of a count, as an f-string interpolates `len(...)`. -/
def natStr (n : Nat) : PyStr := (toString n).toList

def buildReport (issues errors flags anomalies : List Record) (snap : SnapResult)
    (ts : PyStr) : Report :=
  Report.mk
    (str "Found " ++ natStr issues.length ++ str " user issues, " ++ natStr errors.length ++
      str " system errors, " ++ natStr flags.length ++ str " resource flags, " ++
      natStr anomalies.length ++ str " anomalies.")
    issues errors flags anomalies snap ts
    [str "Update conflicting software", str "Run compatibility checks",
     str "Investigate high resource usage"]

/-- The `issue_type` value carried by the records of each category; the
source dictionaries carry it as 'Software Conflict' for mode-A records and
'Application Crash' for event anomalies, and the narrative renderer reads
it only for user issues. -/
def issueTypeStr : Category → PyStr
  | .UserConflict => str "Software Conflict"
  | .EventAnomaly => str "Application Crash"
  | .SystemError => str "SystemError"
  | .ResourceFlag => str "ResourceFlag"

/-- `{flag.get('value', 'N/A')}`: the numeric payload when present. -/
def valueStr : Option ℚ → PyStr
  | none => str "N/A"
  | some q => (toString q).toList

/-- `{anomaly['event_id']}`: an f-string renders a `None` event id as the
text `None`. -/
def optIdStr : Option PyStr → PyStr
  | none => str "None"
  | some s => s

/-- `snapshot.get('processes', '')`: empty for the degraded snapshot. -/
def snapProcesses : SnapResult → PyStr
  | .ok s => s.processes
  | .degraded _ => []

def snapConnections : SnapResult → PyStr
  | .ok s => s.connections
  | .degraded _ => []

def userBullet (r : Record) : PyStr :=
  str "- **Type:** " ++ issueTypeStr r.category ++ str " - " ++ r.description ++ str "\n"

def errorBullet (r : Record) : PyStr :=
  str "- **Code:** " ++ (r.code_or_id.getD []) ++ str " - " ++ r.description ++ str "\n"

def flagBullet (r : Record) : PyStr :=
  str "- **Issue:** " ++ r.description ++ str " - Value: " ++ valueStr r.value ++ str "\n"

def anomalyBullet (r : Record) : PyStr :=
  str "- **Event ID:** " ++ optIdStr r.code_or_id ++ str " - " ++ r.description ++ str "\n"

/-- Everything the Markdown report writer emits after the timestamp line
(toolkit.py lines 108-122), in write order. -/
def mdBody (issues errors flags anomalies : List Record) (snap : SnapResult) : PyStr :=
  str "## User Issues\n" ++ (issues.map userBullet).flatten ++
  str "\n## System Errors\n" ++ (errors.map errorBullet).flatten ++
  str "\n## Resource Flags\n" ++ (flags.map flagBullet).flatten ++
  str "\n## Detected Anomalies\n" ++ (anomalies.map anomalyBullet).flatten ++
  str "\n## System Snapshot\n" ++
  str "### Processes\n```\n" ++ snapProcesses snap ++ str "\n```\n" ++
  str "### Connections\n```\n" ++ snapConnections snap ++ str "\n```\n"

/-- The full Markdown report text (toolkit.py lines 106-122). -/
def mdRender (issues errors flags anomalies : List Record) (snap : SnapResult)
    (ts : PyStr) : PyStr :=
  str "# Remote IT Support Report\n\n" ++
  (str "## Timestamp: " ++ ts ++ str "\n\n") ++
  mdBody issues errors flags anomalies snap

/-- The fixed text of the narrative report up to the timestamp. -/
def mdTsLead : PyStr := str "# Remote IT Support Report\n\n## Timestamp: "

/-- The timestamp-independent text of the narrative report after the
timestamp. -/
def mdAfterTs (issues errors flags anomalies : List Record) (snap : SnapResult) : PyStr :=
  str "\n\n" ++ mdBody issues errors flags anomalies snap

theorem mdRender_decomp (issues errors flags anomalies : List Record) (snap : SnapResult)
    (ts : PyStr) :
    mdRender issues errors flags anomalies snap ts =
      mdTsLead ++ ts ++ mdAfterTs issues errors flags anomalies snap := by
  have hlead : mdTsLead = str "# Remote IT Support Report\n\n" ++ str "## Timestamp: " := rfl
  simp [mdRender, mdAfterTs, hlead, List.append_assoc]

/-- `generate_support_report` (toolkit.py lines 87-123).  The two
`datetime.now()` calls (JSON field, Markdown header) are the two timestamp
arguments; `jsonOk`/`mdOk` say whether the corresponding `open(...,'w')`
and write succeeds or raises `IOError`.  The result is the pair of output
files present after the call (JSON report object, Markdown text) together
with the propagated error naming the failing path, if any: a failing JSON
write aborts before the Markdown block is ever reached. -/
def generate_support_report (issues errors flags anomalies : List Record) (snap : SnapResult)
    (tsJson tsMd : PyStr) (jsonPath mdPath : PyStr) (jsonOk mdOk : Bool) :
    (Option Report × Option PyStr) × Option PyStr :=
  match jsonOk with
  | false => ((none, none), some jsonPath)
  | true =>
      match mdOk with
      | false => ((some (buildReport issues errors flags anomalies snap tsJson), none),
                  some mdPath)
      | true => ((some (buildReport issues errors flags anomalies snap tsJson),
                  some (mdRender issues errors flags anomalies snap tsMd)), none)

/-- C7, counterexample to the claim as stated: when the structured (JSON)
write fails, the narrative report is NOT still produced — the exception
aborts the function before the Markdown block runs, even though the
Markdown write itself would succeed. -/
theorem c7_io_error_counterexample :
    (generate_support_report [] [] [] [] (.degraded (str "x")) (str "t1") (str "t2")
        (str "support_report.json") (str "support_report.md") false true).1.2 = none ∧
    (generate_support_report [] [] [] [] (.degraded (str "x")) (str "t1") (str "t2")
        (str "support_report.json") (str "support_report.md") false true).2 =
      some (str "support_report.json") := ⟨rfl, rfl⟩

/-- C7, amended: an I/O error while writing the narrative report aborts
only that output — the structured report has already been written and the
error propagates naming the narrative path; but an I/O error while writing
the structured report aborts both outputs — the error propagates naming
the structured path and the narrative report is not produced. -/
theorem c7_io_error_isolation (issues errors flags anomalies : List Record) (snap : SnapResult)
    (tsJson tsMd jsonPath mdPath : PyStr) :
    generate_support_report issues errors flags anomalies snap tsJson tsMd jsonPath mdPath
        true false =
      ((some (buildReport issues errors flags anomalies snap tsJson), none), some mdPath) ∧
    generate_support_report issues errors flags anomalies snap tsJson tsMd jsonPath mdPath
        false true = ((none, none), some jsonPath) ∧
    generate_support_report issues errors flags anomalies snap tsJson tsMd jsonPath mdPath
        true true =
      ((some (buildReport issues errors flags anomalies snap tsJson),
        some (mdRender issues errors flags anomalies snap tsMd)), none) :=
  ⟨rfl, rfl, rfl⟩

/-- C9: two successful assembly runs over identical inputs at later
timestamps produce outputs that differ only in the timestamp fields: the
two JSON reports agree once their `timestamp` fields are blanked, and each
Markdown text is the same fixed lead, then the run's timestamp, then the
same timestamp-independent tail. -/
theorem c9_rerun_differs_only_in_timestamp (issues errors flags anomalies : List Record)
    (snap : SnapResult) (ts1 ts2 ts1' ts2' jsonPath mdPath : PyStr) :
    ∃ r m r' m',
      generate_support_report issues errors flags anomalies snap ts1 ts2 jsonPath mdPath
          true true = ((some r, some m), none) ∧
      generate_support_report issues errors flags anomalies snap ts1' ts2' jsonPath mdPath
          true true = ((some r', some m'), none) ∧
      { r with timestamp := [] } = { r' with timestamp := [] } ∧
      r.timestamp = ts1 ∧ r'.timestamp = ts1' ∧
      m = mdTsLead ++ ts2 ++ mdAfterTs issues errors flags anomalies snap ∧
      m' = mdTsLead ++ ts2' ++ mdAfterTs issues errors flags anomalies snap := by
  refine ⟨_, _, _, _, rfl, rfl, rfl, rfl, rfl, ?_, ?_⟩ <;> exact mdRender_decomp _ _ _ _ _ _

theorem startsWith_subset {n h : PyStr} (hs : startsWith n h = true) : ∀ c ∈ n, c ∈ h := by
  induction n generalizing h with
  | nil => intro c hc; cases hc
  | cons a as ih =>
      cases h with
      | nil => simp [startsWith] at hs
      | cons b bs =>
          simp only [startsWith, Bool.and_eq_true, beq_iff_eq] at hs
          obtain ⟨hab, hrest⟩ := hs
          intro c hc
          rcases List.mem_cons.mp hc with rfl | hc
          · exact hab ▸ List.mem_cons_self _ _
          · exact List.mem_cons_of_mem _ (ih hrest c hc)

theorem pyIn_subset {n h : PyStr} (hin : pyIn n h = true) : ∀ c ∈ n, c ∈ h := by
  induction h with
  | nil =>
      cases n with
      | nil => intro c hc; cases hc
      | cons a as => simp [pyIn, afterFirst?, startsWith] at hin
  | cons b bs ih =>
      by_cases hs : startsWith n (b :: bs) = true
      · exact startsWith_subset hs
      · intro c hc
        have hbs : pyIn n bs = true := by
          simp only [pyIn, afterFirst?, hs, Bool.false_eq_true, if_false] at hin
          exact hin
        exact List.mem_cons_of_mem _ (ih hbs c hc)

theorem lowerChar_space {c : Char} (h : pySpace c = true) : lowerChar c = c := by
  simp only [pySpace, Bool.or_eq_true, beq_iff_eq] at h
  rcases h with ((((h | h) | h) | h) | h) | h <;> subst h <;> decide

theorem upperChar_space {c : Char} (h : pySpace c = true) : upperChar c = c := by
  simp only [pySpace, Bool.or_eq_true, beq_iff_eq] at h
  rcases h with ((((h | h) | h) | h) | h) | h <;> subst h <;> decide

theorem pySpace_of_lower {a c : Char} (hl : lowerChar a = c) (hs : pySpace c = false) :
    pySpace a = false := by
  by_cases h : pySpace a = true
  · rw [lowerChar_space h] at hl; subst hl; rw [h] at hs; cases hs
  · simpa using h

theorem pySpace_of_upper {a c : Char} (hl : upperChar a = c) (hs : pySpace c = false) :
    pySpace a = false := by
  by_cases h : pySpace a = true
  · rw [upperChar_space h] at hl; subst hl; rw [h] at hs; cases hs
  · simpa using h

theorem mem_dropWhile_of_neg {p : Char → Bool} {a : Char} {l : PyStr}
    (ha : a ∈ l) (hp : p a = false) : a ∈ l.dropWhile p := by
  induction l with
  | nil => cases ha
  | cons b t ih =>
      by_cases hb : p b = true
      · rcases List.mem_cons.mp ha with rfl | ha'
        · rw [hp] at hb; cases hb
        · simpa [List.dropWhile_cons, hb] using ih ha'
      · simpa [List.dropWhile_cons, hb] using ha

theorem pyStrip_ne_nil {a : Char} {l : PyStr} (ha : a ∈ l) (hp : pySpace a = false) :
    pyStrip l ≠ [] := by
  have h1 : a ∈ pyLstrip l := mem_dropWhile_of_neg ha hp
  have h2 : a ∈ pyRstrip (pyLstrip l) := by
    unfold pyRstrip
    exact List.mem_reverse.mpr (mem_dropWhile_of_neg (List.mem_reverse.mpr h1) hp)
  exact List.ne_nil_of_mem h2

theorem pyStrip_ne_nil_of_pyIn_lower {n l : PyStr} {c : Char} (hcn : c ∈ n)
    (hcs : pySpace c = false) (hin : pyIn n (pyLower l) = true) : pyStrip l ≠ [] := by
  obtain ⟨a, ha, hae⟩ := List.mem_map.mp (pyIn_subset hin c hcn)
  exact pyStrip_ne_nil ha (pySpace_of_lower hae hcs)

theorem pyStrip_ne_nil_of_pyIn_upper {n l : PyStr} {c : Char} (hcn : c ∈ n)
    (hcs : pySpace c = false) (hin : pyIn n (pyUpper l) = true) : pyStrip l ≠ [] := by
  obtain ⟨a, ha, hae⟩ := List.mem_map.mp (pyIn_subset hin c hcn)
  exact pyStrip_ne_nil ha (pySpace_of_upper hae hcs)

theorem eventStep_rec {e : XML} {r : Record} (h : eventStep e = .ok (some r)) :
    r.category = Category.EventAnomaly ∧ r.description ≠ [] := by
  cases hfd : find2 e (str "EventData") (str "Data") with
  | none => simp [eventStep, hfd] at h
  | some d =>
      cases htxt : d.text with
      | none => simp [eventStep, hfd, htxt] at h
      | some txt =>
          by_cases hcr : pyIn (str "crash") (pyLower txt) = true
          · cases hid : find2 e (str "System") (str "EventID") with
            | none => simp [eventStep, hfd, htxt, hcr, hid] at h
            | some idE =>
                have hval : eventStep e =
                    .ok (some (Record.mk Category.EventAnomaly txt idE.text none none)) := by
                  simp [eventStep, hfd, htxt, hcr, hid]
                rw [hval] at h
                have hr : r = Record.mk Category.EventAnomaly txt idE.text none none :=
                  (Option.some.inj (Except.ok.inj h)).symm
                subst hr
                refine ⟨rfl, ?_⟩
                have hc : 'c' ∈ pyLower txt := pyIn_subset hcr 'c' (by decide)
                intro hnil
                rw [show txt = ([] : PyStr) from hnil] at hc
                cases hc
          · simp [eventStep, hfd, htxt, hcr] at h

theorem userLog_mem {lines : List PyStr} {r : Record} (hr : r ∈ analyze_user_log lines) :
    r.category = Category.UserConflict ∧ r.description ≠ [] := by
  induction lines with
  | nil => cases hr
  | cons line rest ih =>
      unfold analyze_user_log at hr
      by_cases hc : (pyIn (str "conflict") (pyLower line) || pyIn (str "error") (pyLower line)
          || pyIn (str "failed to load") (pyLower line)) = true
      · rw [if_pos hc] at hr
        rcases List.mem_cons.mp hr with rfl | hr'
        · refine ⟨rfl, ?_⟩
          simp only [Bool.or_eq_true] at hc
          rcases hc with (hcon | herr) | hf
          · exact pyStrip_ne_nil_of_pyIn_lower (by decide : 'c' ∈ str "conflict") (by decide) hcon
          · exact pyStrip_ne_nil_of_pyIn_lower (by decide : 'e' ∈ str "error") (by decide) herr
          · exact pyStrip_ne_nil_of_pyIn_lower (by decide : 'f' ∈ str "failed to load")
              (by decide) hf
        · exact ih hr'
      · rw [if_neg hc] at hr
        exact ih hr

theorem sysLog_mem (lines : List PyStr) : ∀ (out : List Record) (r : Record),
    analyze_system_logs lines = .ok out → r ∈ out →
    r.category = Category.SystemError ∧ r.description ≠ [] := by
  induction lines with
  | nil =>
      intro out r hok hr
      simp only [analyze_system_logs, Except.ok.injEq] at hok
      subst hok
      cases hr
  | cons line rest ih =>
      intro out r hok hr
      by_cases hc : pyIn (str "ERROR") (pyUpper line) = true
      · cases hsp : splitSecond? (str "ERROR") line with
        | none => simp [analyze_system_logs, hc, hsp] at hok
        | some seg =>
            cases hrest : analyze_system_logs rest with
            | error e2 => simp [analyze_system_logs, hc, hsp, hrest, Except.map] at hok
            | ok out' =>
                have hstep : analyze_system_logs (line :: rest) =
                    .ok (Record.mk Category.SystemError (pyStrip line)
                      (some ((pyStrip seg).take 10)) none none :: out') := by
                  simp [analyze_system_logs, hc, hsp, hrest, Except.map]
                rw [hstep] at hok
                obtain rfl := Except.ok.inj hok
                rcases List.mem_cons.mp hr with rfl | hr'
                · exact ⟨rfl, pyStrip_ne_nil_of_pyIn_upper (by decide : 'E' ∈ str "ERROR")
                    (by decide) hc⟩
                · exact ih out' r hrest hr'
      · have hstep : analyze_system_logs (line :: rest) = analyze_system_logs rest := by
          simp [analyze_system_logs, hc]
        rw [hstep] at hok
        exact ih out r hok hr

theorem events_mem (L : List XML) : ∀ (out : List Record) (r : Record),
    parseEvents L = .ok out → r ∈ out →
    r.category = Category.EventAnomaly ∧ r.description ≠ [] := by
  induction L with
  | nil =>
      intro out r hok hr
      simp only [parseEvents, Except.ok.injEq] at hok
      subst hok
      cases hr
  | cons e rest ih =>
      intro out r hok hr
      cases hstep : eventStep e with
      | error err => simp [parseEvents, hstep] at hok
      | ok orec =>
          cases orec with
          | none =>
              have heq : parseEvents (e :: rest) = parseEvents rest := by
                simp [parseEvents, hstep]
              rw [heq] at hok
              exact ih out r hok hr
          | some rec =>
              cases hrest : parseEvents rest with
              | error e2 => simp [parseEvents, hstep, hrest, Except.map] at hok
              | ok out' =>
                  have heq : parseEvents (e :: rest) = .ok (rec :: out') := by
                    simp [parseEvents, hstep, hrest, Except.map]
                  rw [heq] at hok
                  obtain rfl := Except.ok.inj hok
                  rcases List.mem_cons.mp hr with rfl | hr'
                  · exact eventStep_rec hstep
                  · exact ih out' r hrest hr'

theorem resource_mem (src : MetricSample) (topRes : Except PyError PyStr) :
    ∀ (out : List Record) (r : Record), check_resource_usage src topRes = .ok out → r ∈ out →
    r.category = Category.ResourceFlag ∧ r.description ≠ [] := by
  cases src with
  | available cpu mem =>
      intro out r hok hr
      simp only [check_resource_usage, Except.ok.injEq] at hok
      subst hok
      rcases List.mem_append.mp hr with h | h
      · by_cases h1 : (80 : ℚ) < cpu
        · simp only [h1, if_true, List.mem_singleton] at h
          subst h
          exact ⟨rfl, fun hx => List.noConfusion hx⟩
        · simp [h1] at h
      · by_cases h2 : (80 : ℚ) < mem
        · simp only [h2, if_true, List.mem_singleton] at h
          subst h
          exact ⟨rfl, fun hx => List.noConfusion hx⟩
        · simp [h2] at h
  | unavailable =>
      cases topRes with
      | error e => intro out r hok hr; simp [check_resource_usage] at hok
      | ok o =>
          intro out r hok hr
          simp only [check_resource_usage, Except.ok.injEq] at hok
          subst hok
          obtain rfl := List.mem_singleton.mp hr
          exact ⟨rfl, fun hx => List.noConfusion hx⟩

/-- C8: every record any extractor produces carries exactly one of the four
categories — the one of its extractor — and a non-empty description: a
mode-A/mode-B description is a stripped line that contains a trigger and
hence a non-whitespace character; an anomaly description contains "crash";
resource descriptions are fixed non-empty literals. -/
theorem c8_record_invariant :
    (∀ (lines : List PyStr) (r : Record), r ∈ analyze_user_log lines →
      r.category = Category.UserConflict ∧ r.description ≠ []) ∧
    (∀ (lines : List PyStr) (out : List Record) (r : Record),
      analyze_system_logs lines = .ok out → r ∈ out →
      r.category = Category.SystemError ∧ r.description ≠ []) ∧
    (∀ (doc : XML) (out : List Record) (r : Record),
      parse_event_logs doc = .ok out → r ∈ out →
      r.category = Category.EventAnomaly ∧ r.description ≠ []) ∧
    (∀ (src : MetricSample) (topRes : Except PyError PyStr) (out : List Record) (r : Record),
      check_resource_usage src topRes = .ok out → r ∈ out →
      r.category = Category.ResourceFlag ∧ r.description ≠ []) :=
  ⟨fun _ _ hr => userLog_mem hr,
   fun lines out r hok hr => sysLog_mem lines out r hok hr,
   fun doc out r hok hr => events_mem (findallEvents doc) out r hok hr,
   fun src t out r hok hr => resource_mem src t out r hok hr⟩

theorem sampleDoc_parse :
    parse_event_logs sampleDoc =
      .ok [Record.mk Category.EventAnomaly (str "App crash detected") (some (str "42"))
            none none] := by
  simp only [parse_event_logs, sampleDoc_events]
  rfl

theorem c8_record_invariant_witness :
    ((Record.mk Category.UserConflict (str "error x") none none none).category =
        Category.UserConflict ∧
      (Record.mk Category.UserConflict (str "error x") none none none).description ≠ []) ∧
    ((Record.mk Category.SystemError (str "ERROR 7") (some (str "7")) none none).category =
        Category.SystemError ∧
      (Record.mk Category.SystemError (str "ERROR 7") (some (str "7")) none none).description
        ≠ []) ∧
    ((Record.mk Category.EventAnomaly (str "App crash detected") (some (str "42")) none
        none).category = Category.EventAnomaly ∧
      (Record.mk Category.EventAnomaly (str "App crash detected") (some (str "42")) none
        none).description ≠ []) ∧
    ((Record.mk Category.ResourceFlag (str "High CPU usage") none (some 90) none).category =
        Category.ResourceFlag ∧
      (Record.mk Category.ResourceFlag (str "High CPU usage") none (some 90) none).description
        ≠ []) :=
  ⟨c8_record_invariant.1 [str "error x"] _ (by decide),
   c8_record_invariant.2.1 [str "ERROR 7"]
     [Record.mk Category.SystemError (str "ERROR 7") (some (str "7")) none none]
     (Record.mk Category.SystemError (str "ERROR 7") (some (str "7")) none none)
     (by decide) (by decide),
   c8_record_invariant.2.2.1 sampleDoc
     [Record.mk Category.EventAnomaly (str "App crash detected") (some (str "42")) none none]
     (Record.mk Category.EventAnomaly (str "App crash detected") (some (str "42")) none none)
     sampleDoc_parse (by decide),
   c8_record_invariant.2.2.2 (.available 90 50) (.ok [])
     [Record.mk Category.ResourceFlag (str "High CPU usage") none (some 90) none]
     (Record.mk Category.ResourceFlag (str "High CPU usage") none (some 90) none)
     (by decide) (by decide)⟩
